import Mathlib

/-!
Verification development for the webcam visitor classifier
(`src/door_detector.py`).  The program reads frames from a camera,
classifies the visitor as one of "friend", "delivery", "thief" or
"noperson", overlays a label, and drives a four-state audio controller
that plays one-shot tracks over looping background music.

The embedding below is shallow: the pure classification logic and the
per-tick state update of the main loop are translated into Lean
functions; the external services (object detection, face recognition,
the pygame mixer) appear as explicit inputs, and the mixer side effects
are recorded as an explicit action trace.
-/

namespace DoorDetector

/-! ## Classification (`classify_visitor`, lines 89-117) -/

/-- The fixed delivery-cue label set of step 3 of `classify_visitor`
(line 113 of the source). -/
def delivery_cues : List String := ["handbag", "backpack", "helmet", "suit", "hat"]

/-- Shallow embedding of `classify_visitor` (lines 89-117).

`detected` is the list of labels extracted from the YOLO results
(lines 93-97).  The face-recognition service is abstracted by the list
`encs` of face encodings found in the frame (type parameter `a`) and by
`compare_faces`, the external comparison of one encoding against the
gallery `known_face_encodings`, returning one Bool per gallery entry;
the source loop `for enc in encs: if True in compare_faces(...):
return "friend"` is the `List.any` below. -/
def classify_visitor {a : Type} (detected : List String)
    (encs : List a) (compare_faces : a → List Bool) : String :=
  if "person" ∉ detected then
    "noperson"
  else if encs.any (fun enc => (compare_faces enc).contains true) then
    "friend"
  else if detected.any (fun label => label ∈ delivery_cues) then
    "delivery"
  else
    "thief"

/-! ## Sound helpers (lines 37-53) -/

/-- A recorded side effect on the single pygame music channel:
`stop` is `pygame.mixer.music.stop()`, `play file loop start` is
`load(file)` followed by `play(loop, start)`. -/
inductive AudioAction : Type
  | stop : AudioAction
  | play (file : String) (loop : Int) (start : ℚ) : AudioAction
deriving DecidableEq, Repr

/-- The start position actually passed to `pygame.mixer.music.play` by
`play_sound` (lines 37-44): any file other than the background file
`toto_africa.mp3` is started at offset 27.0, the background file at the
given `start`. -/
def start_offset (file : String) (start : ℚ) : ℚ :=
  if file ≠ "toto_africa.mp3" then 27 else start

/-- Shallow embedding of `play_sound` (lines 37-44): both branches load
the file and play it; they differ only in the start offset. -/
def play_sound (file : String) (loop : Int) (start : ℚ) : AudioAction :=
  AudioAction.play file loop (start_offset file start)

/-- The `sound_files` dictionary (lines 16-21).  The dictionary has
exactly these four keys and is only ever indexed at them; the catch-all
branch is never reached by the program. -/
def sound_files : String → String
  | "background" => "toto_africa.mp3"
  | "friend" => "me_and_your_mama.mp3.mp3"
  | "thief" => "horror-tension-suspense-322304.mp3"
  | "delivery" => "dr_alban.mp3"
  | _ => ""

/-- The `COLOR` dictionary (lines 23-28), BGR triples.  It has exactly
these four keys and is only ever indexed at them. -/
def COLOR : String → Nat × Nat × Nat
  | "thief" => (0, 0, 255)
  | "friend" => (0, 255, 0)
  | "delivery" => (255, 255, 0)
  | "noperson" => (255, 255, 255)
  | _ => (0, 0, 0)

/-- The `delays` dictionary (lines 30-35), all zero.  It has exactly
these four keys and is only ever indexed at them. -/
def delays : String → ℚ
  | "friend" => 0
  | "thief" => 0
  | "delivery" => 0
  | "noperson" => 0
  | _ => 0

/-! ## Controller state

The mutable module-level state of the main loop: `last_event`,
`event_start_time`, `event_played` (lines 123-125), `current_track`
(line 46), together with the observable state of the single pygame
music channel: whether it is busy (`pygame.mixer.music.get_busy()`)
and whether the current play was started with `loop = -1`. -/

structure CtrlState : Type where
  last_event : Option String
  event_start_time : ℚ
  event_played : Bool
  current_track : Option String
  busy : Bool
  looping : Bool
deriving DecidableEq, Repr

/-- Shallow embedding of `play_track` (lines 48-53): stop whatever is
playing, then `play_sound(sound_files[name], loop)` (with the default
start 0.0) and record the new `current_track`.  Returns the new state
and the channel actions in order. -/
def play_track (s : CtrlState) (name : String) (loop : Int) :
    CtrlState × List AudioAction :=
  ({ s with current_track := some name, busy := true, looping := loop = -1 },
   [AudioAction.stop, play_sound (sound_files name) loop 0])

/-- External mixer progress between two loop iterations: a track that
was started without looping may have finished (`fin = true`), which
makes `get_busy()` report false; a `loop = -1` track never finishes on
its own. -/
def pollMixer (s : CtrlState) (fin : Bool) : CtrlState :=
  if s.busy && !s.looping && fin then { s with busy := false } else s

/-- Category-change handling (lines 157-161): when the classified
visitor differs from `last_event`, record it, reset the event timer and
the played flag, and stop the channel immediately. -/
def handle_change (s : CtrlState) (visitor : String) (now : ℚ) :
    CtrlState × List AudioAction :=
  if some visitor ≠ s.last_event then
    ({ s with last_event := some visitor, event_start_time := now,
              event_played := false, busy := false },
     [AudioAction.stop])
  else (s, [])

/-- One-shot firing (lines 170-172): when the one-shot for the current
category has not been played yet and its delay has elapsed, play it and
mark `event_played`. -/
def fire_oneshot (s : CtrlState) (visitor : String) (now : ℚ) :
    CtrlState × List AudioAction :=
  if s.event_played = false ∧ delays visitor ≤ now - s.event_start_time then
    let p := play_track s visitor 0
    ({ p.1 with event_played := true }, p.2)
  else (s, [])

/-- Return to background (lines 174-178): when the one-shot has been
played and the channel is no longer busy, restart the looping
background track and reset `event_played` and `event_start_time`. -/
def resume_background (s : CtrlState) (now : ℚ) :
    CtrlState × List AudioAction :=
  if s.event_played = true ∧ s.busy = false then
    let p := play_track s "background" (-1)
    ({ p.1 with event_played := false, event_start_time := now }, p.2)
  else (s, [])

/-- Playback decision (lines 163-178): keep the background loop alive
when nobody is there (lines 163-166); otherwise fire the one-shot for
the category once its delay has elapsed, and fall back to the looping
background track when the one-shot has finished (lines 168-178). -/
def audio_decision (s : CtrlState) (visitor : String) (now : ℚ) :
    CtrlState × List AudioAction :=
  if visitor = "noperson" then
    if s.current_track ≠ some "background" ∨ s.busy = false then
      play_track s "background" (-1)
    else (s, [])
  else
    let o := fire_oneshot s visitor now
    let r := resume_background o.1 now
    (r.1, o.2 ++ r.2)

/-- One iteration of the event-handling part of the main loop
(lines 157-178), given the classified `visitor`, the timestamp `now`
(line 140) and the external information `fin` of whether a non-looping
track has finished since the previous iteration. -/
def tick (s : CtrlState) (visitor : String) (now : ℚ) (fin : Bool) :
    CtrlState × List AudioAction :=
  let s0 := pollMixer s fin
  let c := handle_change s0 visitor now
  let d := audio_decision c.1 visitor now
  (d.1, c.2 ++ d.2)

/-- The state right after start-up (lines 123-125 and the initial
`play_track("background", loop=-1)` on line 58). -/
def initState : CtrlState :=
  (play_track
    { last_event := none, event_start_time := 0, event_played := false,
      current_track := none, busy := false, looping := false }
    "background" (-1)).1

/-! ## Overlay rendering (lines 126-152) -/

/-- `BLINK_INTERVAL` (line 126). -/
def BLINK_INTERVAL : ℚ := 1 / 2

/-- Python float `%`: `a % b = a - b * floor(a / b)`. -/
def pymod (a b : ℚ) : ℚ := a - b * ⌊a / b⌋

/-- Shallow embedding of `thief_blink` (lines 128-130): true during the
ON half of the blink cycle. -/
def thief_blink (now : ℚ) : Bool :=
  decide (pymod now (2 * BLINK_INTERVAL) < BLINK_INTERVAL)

/-- Overlay rendering of the main loop (lines 143-152): `none` when no
text is drawn this tick, otherwise the text and its BGR color. -/
def renderOverlay (visitor : String) (now : ℚ) :
    Option (String × (Nat × Nat × Nat)) :=
  if visitor = "thief" then
    if thief_blink now then some ("Visitor: thief", COLOR "thief") else none
  else if visitor = "noperson" then
    some ("No person detected", COLOR "noperson")
  else
    some ("Visitor: " ++ visitor, COLOR visitor)

/-! ## Start-up error handling (lines 64-83) -/

/-- Outcome of the start-up sequence: either a fatal diagnostic with an
exit status (`print` followed by `sys.exit(1)`), or the program goes on
to enter the main loop. -/
inductive StartupResult : Type
  | fatal (msg : String) (exitCode : Nat) : StartupResult
  | ok : StartupResult
deriving DecidableEq, Repr

/-- Shallow embedding of the start-up checks: the gallery-directory
check (lines 68-70) runs first, the camera check (lines 80-83) second;
each prints a diagnostic and exits with status 1.  The inputs abstract
`os.path.isdir(friends_dir)` and `cap.isOpened()`. -/
def startup (friends_dir_isdir : Bool) (cam_isOpened : Bool) : StartupResult :=
  if friends_dir_isdir = false then
    StartupResult.fatal "ERROR: friends directory not found" 1
  else if cam_isOpened = false then
    StartupResult.fatal "ERROR: could not open webcam" 1
  else StartupResult.ok

/-- Process exit status as a function of the two start-up conditions: a
fatal start-up error exits with its code; otherwise the main loop runs
and a normal quit falls through to the cleanup code (lines 187-190) and
the implicit interpreter exit status 0. -/
def processExitCode (friends_dir_isdir : Bool) (cam_isOpened : Bool) : Nat :=
  match startup friends_dir_isdir cam_isOpened with
  | StartupResult.fatal _ code => code
  | StartupResult.ok => 0

/-! ## Mixer-channel trace predicates (for the single-channel guarantee) -/

/-- Guardedness of a channel action trace: every `play` is immediately
preceded by a `stop`.  The flag records whether the previous action was
a `stop`. -/
def guardedAux (prevStop : Bool) : List AudioAction → Bool
  | [] => true
  | AudioAction.stop :: rest => guardedAux true rest
  | AudioAction.play _ _ _ :: rest => prevStop && guardedAux false rest

/-- Effect of one channel action on the number of simultaneously
playing tracks: `stop` silences the channel, `play` starts one more
track on it. -/
def applyAction (n : Nat) : AudioAction → Nat
  | AudioAction.stop => 0
  | AudioAction.play _ _ _ => n + 1

/-- Number of simultaneously playing tracks after running a trace from
a channel with `n` tracks playing. -/
def runActions (n : Nat) (acts : List AudioAction) : Nat :=
  acts.foldl applyAction n

/-! ## Theorems for the classifier claims -/

/-- C1: for every detection result set whose extracted label list does
not contain "person", `classify_visitor` returns "noperson", for every
possible behaviour of the face-match service (the result is independent
of `encs` and `compare_faces`, reflecting that the source returns on
line 101 before the face-match code runs). -/
theorem C1_no_person_noperson {a : Type} (detected : List String)
    (encs : List a) (compare_faces : a → List Bool)
    (h : "person" ∉ detected) :
    classify_visitor detected encs compare_faces = "noperson" := by
  simp [classify_visitor, h]

/-- Witness for C1 at a concrete input: labels without "person", with a
face-match service that would match everything. -/
theorem C1_witness :
    ("person" ∉ ["dog", "handbag"]) ∧
      classify_visitor ["dog", "handbag"] [0] (fun _ : Nat => [true]) = "noperson" :=
  ⟨by decide, C1_no_person_noperson ["dog", "handbag"] [0] (fun _ => [true]) (by decide)⟩

/-- C2: whenever "person" is among the detected labels and some
detected face encoding matches a gallery encoding (the comparison list
of some encoding contains `True`), `classify_visitor` returns "friend",
whatever other labels (in particular delivery cues) are present. -/
theorem C2_face_match_friend {a : Type} (detected : List String)
    (encs : List a) (compare_faces : a → List Bool)
    (hp : "person" ∈ detected)
    (hm : ∃ enc ∈ encs, (compare_faces enc).contains true = true) :
    classify_visitor detected encs compare_faces = "friend" := by
  have hany : encs.any (fun enc => (compare_faces enc).contains true) = true := by
    rcases hm with ⟨enc, henc, hc⟩
    exact List.any_eq_true.mpr ⟨enc, henc, hc⟩
  unfold classify_visitor
  rw [if_neg (not_not_intro hp), if_pos hany]

/-- Witness for C2 at a concrete input: a person with a backpack whose
single face encoding matches the gallery. -/
theorem C2_witness :
    ("person" ∈ ["person", "backpack"]) ∧
      classify_visitor ["person", "backpack"] [7] (fun _ : Nat => [false, true]) = "friend" :=
  ⟨by decide,
   C2_face_match_friend ["person", "backpack"] [7] (fun _ => [false, true])
     (by decide) ⟨7, by decide, by decide⟩⟩

/-- C3: with "person" detected and no face matching the gallery,
`classify_visitor` returns "delivery" exactly when some detected label
is a delivery cue, and returns "thief" exactly otherwise. -/
theorem C3_delivery_or_thief {a : Type} (detected : List String)
    (encs : List a) (compare_faces : a → List Bool)
    (hp : "person" ∈ detected)
    (hm : encs.any (fun enc => (compare_faces enc).contains true) = false) :
    (classify_visitor detected encs compare_faces = "delivery" ↔
      ∃ label ∈ detected, label ∈ delivery_cues) ∧
    (classify_visitor detected encs compare_faces = "thief" ↔
      ¬ ∃ label ∈ detected, label ∈ delivery_cues) := by
  have h2 : ¬ (encs.any (fun enc => (compare_faces enc).contains true) = true) := by
    rw [hm]
    exact Bool.false_ne_true
  unfold classify_visitor
  rw [if_neg (not_not_intro hp), if_neg h2]
  by_cases hcue : detected.any (fun label => label ∈ delivery_cues) = true
  · have hex : ∃ label ∈ detected, label ∈ delivery_cues := by
      rcases List.any_eq_true.mp hcue with ⟨l, hl, hc⟩
      exact ⟨l, hl, by simpa using hc⟩
    rw [if_pos hcue]
    exact ⟨⟨fun _ => hex, fun _ => rfl⟩,
           ⟨fun h => absurd h (by decide), fun hn => absurd hex hn⟩⟩
  · have hex : ¬ ∃ label ∈ detected, label ∈ delivery_cues := by
      intro hx
      rcases hx with ⟨l, hl, hc⟩
      exact hcue (List.any_eq_true.mpr ⟨l, hl, by simpa using hc⟩)
    rw [if_neg hcue]
    exact ⟨⟨fun h => absurd h (by decide), fun hx => absurd hx hex⟩,
           ⟨fun _ => hex, fun _ => rfl⟩⟩

/-- Witness for C3 at a concrete input: an unmatched person with a
helmet is classified as delivery. -/
theorem C3_witness :
    ("person" ∈ ["person", "helmet"]) ∧
      ([3].any (fun enc => ((fun _ : Nat => [false]) enc).contains true) = false) ∧
      classify_visitor ["person", "helmet"] [3] (fun _ : Nat => [false]) = "delivery" := by
  refine ⟨by decide, by decide, ?_⟩
  exact ((C3_delivery_or_thief ["person", "helmet"] [3] (fun _ => [false])
    (by decide) (by decide)).1).mpr ⟨"helmet", by decide, by decide⟩

/-! ## Helper lemmas about the controller step -/

/-- The tick is, definitionally, mixer polling, then change handling,
then the playback decision, with the channel actions in that order. -/
theorem tick_eq (s : CtrlState) (v : String) (now : ℚ) (fin : Bool) :
    tick s v now fin =
      ((audio_decision (handle_change (pollMixer s fin) v now).1 v now).1,
       (handle_change (pollMixer s fin) v now).2 ++
         (audio_decision (handle_change (pollMixer s fin) v now).1 v now).2) := rfl

theorem pollMixer_last_event (s : CtrlState) (fin : Bool) :
    (pollMixer s fin).last_event = s.last_event := by
  unfold pollMixer
  split <;> rfl

theorem pollMixer_event_start_time (s : CtrlState) (fin : Bool) :
    (pollMixer s fin).event_start_time = s.event_start_time := by
  unfold pollMixer
  split <;> rfl

theorem pollMixer_event_played (s : CtrlState) (fin : Bool) :
    (pollMixer s fin).event_played = s.event_played := by
  unfold pollMixer
  split <;> rfl

theorem pollMixer_current_track (s : CtrlState) (fin : Bool) :
    (pollMixer s fin).current_track = s.current_track := by
  unfold pollMixer
  split <;> rfl

theorem pollMixer_looping (s : CtrlState) (fin : Bool) :
    (pollMixer s fin).looping = s.looping := by
  unfold pollMixer
  split <;> rfl

theorem handle_change_current_track (s : CtrlState) (v : String) (now : ℚ) :
    (handle_change s v now).1.current_track = s.current_track := by
  unfold handle_change
  split <;> rfl

theorem handle_change_looping (s : CtrlState) (v : String) (now : ℚ) :
    (handle_change s v now).1.looping = s.looping := by
  unfold handle_change
  split <;> rfl

theorem audio_decision_eq_noperson (t : CtrlState) (now : ℚ) :
    audio_decision t "noperson" now =
      (if t.current_track ≠ some "background" ∨ t.busy = false
       then play_track t "background" (-1) else (t, [])) := by
  unfold audio_decision
  rw [if_pos rfl]

theorem audio_decision_eq_else (t : CtrlState) (v : String) (now : ℚ)
    (hnp : v ≠ "noperson") :
    audio_decision t v now =
      ((resume_background (fire_oneshot t v now).1 now).1,
       (fire_oneshot t v now).2 ++ (resume_background (fire_oneshot t v now).1 now).2) := by
  unfold audio_decision
  rw [if_neg hnp]

/-- When the one-shot has been played and the channel is idle, the
return-to-background branch fires: it stops, loads the background file
and loops it from offset 0, and resets the event state. -/
theorem resume_background_fires (t : CtrlState) (now : ℚ)
    (hp : t.event_played = true) (hb : t.busy = false) :
    resume_background t now =
      ({ t with current_track := some "background", busy := true, looping := true,
                event_played := false, event_start_time := now },
       [AudioAction.stop, AudioAction.play "toto_africa.mp3" (-1) 0]) := by
  unfold resume_background
  rw [if_pos ⟨hp, hb⟩]
  rfl

/-- The change branch emits either no channel action or a single stop. -/
theorem handle_change_acts (s : CtrlState) (v : String) (now : ℚ) :
    (handle_change s v now).2 = [] ∨ (handle_change s v now).2 = [AudioAction.stop] := by
  unfold handle_change
  split
  · exact Or.inr rfl
  · exact Or.inl rfl

theorem fire_oneshot_acts (s : CtrlState) (v : String) (now : ℚ) :
    (fire_oneshot s v now).2 = [] ∨
      ∃ f l st, (fire_oneshot s v now).2 = [AudioAction.stop, AudioAction.play f l st] := by
  unfold fire_oneshot
  split
  · exact Or.inr ⟨_, _, _, rfl⟩
  · exact Or.inl rfl

theorem resume_background_acts (s : CtrlState) (now : ℚ) :
    (resume_background s now).2 = [] ∨
      ∃ f l st, (resume_background s now).2 = [AudioAction.stop, AudioAction.play f l st] := by
  unfold resume_background
  split
  · exact Or.inr ⟨_, _, _, rfl⟩
  · exact Or.inl rfl

/-- Whatever the branch, the playback decision emits a trace in which
every play is immediately preceded by a stop, from any previous-action
state. -/
theorem audio_decision_guarded (s : CtrlState) (v : String) (now : ℚ) (p : Bool) :
    guardedAux p (audio_decision s v now).2 = true := by
  by_cases hnp : v = "noperson"
  · subst hnp
    rw [audio_decision_eq_noperson]
    split
    · rfl
    · rfl
  · rw [audio_decision_eq_else s v now hnp]
    rcases fire_oneshot_acts s v now with h1 | ⟨f, l, st, h1⟩ <;>
      rcases resume_background_acts (fire_oneshot s v now).1 now with h2 | ⟨g, m, su, h2⟩ <;>
        rw [h1, h2] <;> rfl

/-- The whole tick emits a guarded trace. -/
theorem tick_guarded (s : CtrlState) (v : String) (now : ℚ) (fin : Bool) :
    guardedAux false (tick s v now fin).2 = true := by
  rw [tick_eq]
  rcases handle_change_acts (pollMixer s fin) v now with h | h <;> rw [h]
  · exact audio_decision_guarded _ _ _ false
  · exact audio_decision_guarded _ _ _ true

/-- Running a guarded trace from a channel with at most one playing
track leaves at most one playing track. -/
theorem guarded_runActions_le (acts : List AudioAction) :
    ∀ (n : Nat) (p : Bool), guardedAux p acts = true →
      n ≤ 1 → (p = true → n = 0) → runActions n acts ≤ 1 := by
  induction acts with
  | nil =>
    intro n p _ hn _
    exact hn
  | cons a rest ih =>
    intro n p hg hn hp
    cases a with
    | stop =>
      have hstep : runActions n (AudioAction.stop :: rest) = runActions 0 rest := rfl
      rw [hstep]
      exact ih 0 true hg (Nat.zero_le 1) (fun _ => rfl)
    | play f l st =>
      have hg' : (p && guardedAux false rest) = true := hg
      have hp1 : p = true := by
        cases p with
        | true => rfl
        | false => simp at hg'
      have hn0 : n = 0 := hp hp1
      have hstep : runActions n (AudioAction.play f l st :: rest) = runActions (n + 1) rest := rfl
      rw [hstep, hn0]
      exact ih 1 false (by
        cases hand : guardedAux false rest with
        | true => rfl
        | false => rw [hp1, hand] at hg'; simp at hg') (Nat.le_refl 1)
        (fun h => absurd h Bool.false_ne_true)

/-- Reachability invariant used for the background-loop claim: whenever
the background track is the current track it was started with
`loop = -1`.  Preserved by every tick whose category is one of the four
classifier outputs (none of which is the name "background"). -/
theorem tick_preserves_background_loops (s : CtrlState) (v : String) (now : ℚ) (fin : Bool)
    (hv : v ≠ "background")
    (inv : s.current_track = some "background" → s.looping = true) :
    (tick s v now fin).1.current_track = some "background" →
    (tick s v now fin).1.looping = true := by
  rw [tick_eq]
  by_cases hnp : v = "noperson"
  · subst hnp
    rw [audio_decision_eq_noperson]
    split
    · intro _
      rfl
    · intro h
      rw [handle_change_current_track, pollMixer_current_track] at h
      have hs := inv h
      show (handle_change (pollMixer s fin) "noperson" now).1.looping = true
      rw [handle_change_looping, pollMixer_looping]
      exact hs
  · rw [audio_decision_eq_else _ v now hnp]
    by_cases hr : (fire_oneshot (handle_change (pollMixer s fin) v now).1 v now).1.event_played = true ∧
        (fire_oneshot (handle_change (pollMixer s fin) v now).1 v now).1.busy = false
    · unfold resume_background
      rw [if_pos hr]
      intro _
      rfl
    · unfold resume_background
      rw [if_neg hr]
      by_cases hf : (handle_change (pollMixer s fin) v now).1.event_played = false ∧
          delays v ≤ now - (handle_change (pollMixer s fin) v now).1.event_start_time
      · unfold fire_oneshot
        rw [if_pos hf]
        intro h
        have hsv : some v = some "background" := h
        exact absurd (Option.some.inj hsv) hv
      · unfold fire_oneshot
        rw [if_neg hf]
        intro h
        rw [handle_change_current_track, pollMixer_current_track] at h
        have hs := inv h
        show (handle_change (pollMixer s fin) v now).1.looping = true
        rw [handle_change_looping, pollMixer_looping]
        exact hs

/-! ## Theorems for the controller claims -/

/-- C4: on a tick whose category differs from the previous category
`last_event`, the change branch records the new category, sets the
event timer to `now`, clears `event_played`, and stops the channel
(emitting a stop action); and the tick performs exactly this change
handling before the playback decision, whose input is the changed
state. -/
theorem C4_category_change (s : CtrlState) (v : String) (now : ℚ) (fin : Bool)
    (h : some v ≠ s.last_event) :
    (handle_change (pollMixer s fin) v now).1.last_event = some v ∧
    (handle_change (pollMixer s fin) v now).1.event_start_time = now ∧
    (handle_change (pollMixer s fin) v now).1.event_played = false ∧
    (handle_change (pollMixer s fin) v now).1.busy = false ∧
    (handle_change (pollMixer s fin) v now).2 = [AudioAction.stop] ∧
    tick s v now fin =
      ((audio_decision (handle_change (pollMixer s fin) v now).1 v now).1,
       (handle_change (pollMixer s fin) v now).2 ++
         (audio_decision (handle_change (pollMixer s fin) v now).1 v now).2) := by
  have hc : some v ≠ (pollMixer s fin).last_event := by
    rw [pollMixer_last_event]
    exact h
  have hh : handle_change (pollMixer s fin) v now =
      (({ pollMixer s fin with last_event := some v, event_start_time := now,
                               event_played := false, busy := false } : CtrlState),
       [AudioAction.stop]) := by
    unfold handle_change
    rw [if_pos hc]
  refine ⟨?_, ?_, ?_, ?_, ?_, rfl⟩ <;> rw [hh]

/-- Witness for C4: from the start-up state (whose `last_event` is
`None`), a "noperson" tick records the new category. -/
theorem C4_witness :
    (some "noperson" ≠ initState.last_event) ∧
      (handle_change (pollMixer initState false) "noperson" 5).1.last_event = some "noperson" :=
  ⟨by decide, (C4_category_change initState "noperson" 5 false (by decide)).1⟩

/-- C5: on a "noperson" tick, from any state satisfying the
reachability invariant that the background track only ever plays in
loop mode (established by `tick_preserves_background_loops`), the step
leaves the background track current, busy and looping. -/
theorem C5_background_loop (s : CtrlState) (now : ℚ) (fin : Bool)
    (inv : s.current_track = some "background" → s.looping = true) :
    (tick s "noperson" now fin).1.current_track = some "background" ∧
    (tick s "noperson" now fin).1.busy = true ∧
    (tick s "noperson" now fin).1.looping = true := by
  rw [tick_eq, audio_decision_eq_noperson]
  by_cases hcond : (handle_change (pollMixer s fin) "noperson" now).1.current_track ≠ some "background" ∨
      (handle_change (pollMixer s fin) "noperson" now).1.busy = false
  · rw [if_pos hcond]
    exact ⟨rfl, rfl, rfl⟩
  · rw [if_neg hcond]
    push_neg at hcond
    have hct : (handle_change (pollMixer s fin) "noperson" now).1.current_track = s.current_track := by
      rw [handle_change_current_track, pollMixer_current_track]
    have hlp : (handle_change (pollMixer s fin) "noperson" now).1.looping = s.looping := by
      rw [handle_change_looping, pollMixer_looping]
    refine ⟨hcond.1, ?_, ?_⟩
    · cases hb : (handle_change (pollMixer s fin) "noperson" now).1.busy with
      | true => rfl
      | false => exact absurd hb hcond.2
    · show (handle_change (pollMixer s fin) "noperson" now).1.looping = true
      rw [hlp]
      exact inv (hct ▸ hcond.1)

/-- Witness for C5: from the start-up state, a "noperson" tick keeps
the background track current. -/
theorem C5_witness :
    (initState.current_track = some "background" → initState.looping = true) ∧
      (tick initState "noperson" 0 false).1.current_track = some "background" :=
  ⟨by decide, (C5_background_loop initState 0 false (by decide)).1⟩

/-- C6: on a tick whose category equals the previous one and is one of
the three one-shot categories, with the one-shot already played and the
channel no longer busy after polling, the step restarts the looping
background track and resets `event_played` and the event timer to
`now`. -/
theorem C6_resume_background (s : CtrlState) (v : String) (now : ℚ) (fin : Bool)
    (hv : v = "friend" ∨ v = "delivery" ∨ v = "thief")
    (hl : s.last_event = some v)
    (hp : s.event_played = true)
    (hb : (pollMixer s fin).busy = false) :
    (tick s v now fin).1.current_track = some "background" ∧
    (tick s v now fin).1.busy = true ∧
    (tick s v now fin).1.looping = true ∧
    (tick s v now fin).1.event_played = false ∧
    (tick s v now fin).1.event_start_time = now := by
  have hnp : v ≠ "noperson" := by
    rcases hv with h | h | h <;> rw [h] <;> decide
  have hl0 : (pollMixer s fin).last_event = some v := by
    rw [pollMixer_last_event]
    exact hl
  have hp0 : (pollMixer s fin).event_played = true := by
    rw [pollMixer_event_played]
    exact hp
  have hc : handle_change (pollMixer s fin) v now = (pollMixer s fin, []) := by
    unfold handle_change
    rw [if_neg (fun hne => hne hl0.symm)]
  have hc1 : (handle_change (pollMixer s fin) v now).1 = pollMixer s fin := by
    rw [hc]
  have hc2 : (handle_change (pollMixer s fin) v now).2 = ([] : List AudioAction) := by
    rw [hc]
  have hnofire : ¬ ((pollMixer s fin).event_played = false ∧
      delays v ≤ now - (pollMixer s fin).event_start_time) := by
    intro hcn
    rw [hp0] at hcn
    exact absurd hcn.1 (by decide)
  have hfire : fire_oneshot (pollMixer s fin) v now = (pollMixer s fin, []) := by
    unfold fire_oneshot
    rw [if_neg hnofire]
  have hfire1 : (fire_oneshot (pollMixer s fin) v now).1 = pollMixer s fin := by
    rw [hfire]
  have hfire2 : (fire_oneshot (pollMixer s fin) v now).2 = ([] : List AudioAction) := by
    rw [hfire]
  have hres := resume_background_fires (pollMixer s fin) now hp0 hb
  rw [tick_eq, hc1, hc2, audio_decision_eq_else _ v now hnp, hfire1, hfire2, hres]
  exact ⟨rfl, rfl, rfl, rfl, rfl⟩

/-- Witness for C6: a state that just finished the thief one-shot
resumes the background loop on the next tick. -/
theorem C6_witness :
    ((("thief" : String) = "friend" ∨ ("thief" : String) = "delivery" ∨ ("thief" : String) = "thief") ∧
      (pollMixer { last_event := some "thief", event_start_time := 0, event_played := true,
                   current_track := some "thief", busy := true, looping := false } true).busy = false) ∧
      (tick { last_event := some "thief", event_start_time := 0, event_played := true,
              current_track := some "thief", busy := true, looping := false }
          "thief" 4 true).1.current_track = some "background" :=
  ⟨⟨by decide, by decide⟩,
   (C6_resume_background
      { last_event := some "thief", event_start_time := 0, event_played := true,
        current_track := some "thief", busy := true, looping := false }
      "thief" 4 true (by decide) (by decide) (by decide) (by decide)).1⟩

/-- C7: the channel trace of `play_track` is always a stop followed by
the load-and-play, the trace of every tick has every play immediately
preceded by a stop, and hence a tick never raises the number of
simultaneously playing tracks above one. -/
theorem C7_single_channel (s : CtrlState) (v : String) (now : ℚ) (fin : Bool) (n : Nat) :
    (∀ (t : CtrlState) (name : String) (loop : Int),
        (play_track t name loop).2 = [AudioAction.stop, play_sound (sound_files name) loop 0]) ∧
    guardedAux false (tick s v now fin).2 = true ∧
    (n ≤ 1 → runActions n (tick s v now fin).2 ≤ 1) :=
  ⟨fun _ _ _ => rfl, tick_guarded s v now fin,
   fun hn => guarded_runActions_le (tick s v now fin).2 n false
     (tick_guarded s v now fin) hn (fun h => absurd h Bool.false_ne_true)⟩

/-- Witness for C7: a thief tick from the start-up state keeps at most
one track playing. -/
theorem C7_witness :
    (1 : Nat) ≤ 1 ∧ runActions 1 (tick initState "thief" 2 false).2 ≤ 1 :=
  ⟨by decide, (C7_single_channel initState "thief" 2 false 1).2.2 (by decide)⟩

/-- C8: the thief overlay is rendered exactly when
`now mod (2 * 0.5) < 0.5` (Python float modulo), so its visibility
toggles every half time unit, while the other three categories render
their label unconditionally on every tick. -/
theorem C8_thief_blink_overlay (now : ℚ) :
    ((renderOverlay "thief" now).isSome = true ↔ pymod now (2 * (1 / 2 : ℚ)) < 1 / 2) ∧
    (renderOverlay "friend" now).isSome = true ∧
    (renderOverlay "delivery" now).isSome = true ∧
    (renderOverlay "noperson" now).isSome = true := by
  refine ⟨?_, rfl, rfl, rfl⟩
  have hbl : thief_blink now = true ↔ pymod now (2 * (1 / 2 : ℚ)) < 1 / 2 := by
    unfold thief_blink BLINK_INTERVAL
    exact decide_eq_true_iff
  unfold renderOverlay
  rw [if_pos rfl]
  by_cases hb : thief_blink now = true
  · rw [if_pos hb]
    exact ⟨fun _ => hbl.mp hb, fun _ => rfl⟩
  · rw [if_neg hb]
    exact ⟨fun hc => absurd hc (by decide), fun hc => absurd (hbl.mpr hc) hb⟩

/-- C9: a missing gallery directory or an unopenable camera makes
start-up print a diagnostic and exit with status 1 before the main loop
is entered; with both checks passing, the loop runs and a normal quit
yields exit status 0. -/
theorem C9_startup_exit_codes :
    (∀ cam : Bool,
        startup false cam = StartupResult.fatal "ERROR: friends directory not found" 1) ∧
    (startup true false = StartupResult.fatal "ERROR: could not open webcam" 1) ∧
    (startup true true = StartupResult.ok) ∧
    (∀ cam : Bool, processExitCode false cam = 1) ∧
    (processExitCode true false = 1) ∧
    (processExitCode true true = 0) :=
  ⟨fun _ => rfl, rfl, rfl, fun _ => rfl, rfl, rfl⟩

/-- C10: `play_sound` starts every file other than the background file
at the fixed offset 27.0 instead of the requested position, and starts
the background file at the requested position (0.0 via `play_track`);
so the friend, thief and delivery one-shots all skip the first 27
seconds of their files. -/
theorem C10_oneshot_offset :
    (∀ (file : String) (loop : Int) (start : ℚ), file ≠ "toto_africa.mp3" →
        play_sound file loop start = AudioAction.play file loop 27) ∧
    (∀ (loop : Int) (start : ℚ),
        play_sound "toto_africa.mp3" loop start = AudioAction.play "toto_africa.mp3" loop start) ∧
    (∀ (s : CtrlState) (loop : Int),
        (play_track s "friend" loop).2 =
          [AudioAction.stop, AudioAction.play "me_and_your_mama.mp3.mp3" loop 27] ∧
        (play_track s "thief" loop).2 =
          [AudioAction.stop, AudioAction.play "horror-tension-suspense-322304.mp3" loop 27] ∧
        (play_track s "delivery" loop).2 =
          [AudioAction.stop, AudioAction.play "dr_alban.mp3" loop 27] ∧
        (play_track s "background" loop).2 =
          [AudioAction.stop, AudioAction.play "toto_africa.mp3" loop 0]) := by
  refine ⟨?_, fun _ _ => rfl, fun _ _ => ⟨rfl, rfl, rfl, rfl⟩⟩
  intro file loop start h
  unfold play_sound start_offset
  rw [if_pos h]

/-- Witness for C10: a non-background file is started at offset 27. -/
theorem C10_witness :
    (("beep.mp3" : String) ≠ "toto_africa.mp3") ∧
      play_sound "beep.mp3" 0 0 = AudioAction.play "beep.mp3" 0 27 :=
  ⟨by decide, C10_oneshot_offset.1 "beep.mp3" 0 0 (by decide)⟩

end DoorDetector
